import Mathlib

/-!
Verification of the ProxmoxEmCP Node.js server (`index.js`, the MCP server
implementation) against its natural-language specification.

The embedding models the `ProxmoxManager` class and the MCP tool-call
dispatcher. Network traffic is modelled by a `World`: a record of typed
response functions, one per upstream REST endpoint family. Every embedded
handler returns its result together with the list of requests it issued, so
"no network call" and "queried with limit L" are stated as facts about that
trace.

JavaScript dynamic-typing conventions used throughout:
- `apiCall` never rejects: it catches every axios failure and returns the
  envelope `{error: message}`. The type `ApiResp` is the value a caller of
  `apiCall` observes: `.err m` is that envelope, `.ok none` a falsy body
  (`response.data?.data || response.data` evaluated to undefined/null),
  `.ok (some d)` a truthy decoded body.
- String falsiness (`s || d`) is modelled by `jsOr`; `0 || d` on numbers by
  `jsFallback`.
-/

namespace ProxmoxEmCP

/-- Splitting worker over character lists: at each position either the
separator is a prefix (cut here) or one character is shifted onto the
accumulator. Fuel is instantiated with the string length, which bounds the
recursion for any non-empty separator. -/
def jsSplitAux (sep : List Char) : Nat → List Char → List Char → List (List Char)
  | _, [], acc => [acc.reverse]
  | 0, rest, acc => [acc.reverse ++ rest]
  | fuel+1, x :: xs, acc =>
      if sep.isPrefixOf (x :: xs) then
        acc.reverse :: jsSplitAux sep fuel ((x :: xs).drop sep.length) []
      else jsSplitAux sep fuel xs (x :: acc)

/-- JavaScript `s.split(sep)` for a non-empty separator: the list of
chunks between non-overlapping occurrences of `sep`, with empty chunks kept
(so a trailing separator yields a trailing empty string and
`"".split(sep) = [""]`). -/
def jsSplit (s sep : String) : List String :=
  (jsSplitAux sep.data s.data.length s.data []).map List.asString

/-- JavaScript `s.includes(c)` for a single-character needle. -/
def jsIncludesChar (s : String) (c : Char) : Bool := s.data.contains c

/-- JavaScript `s.startsWith(pre)`. -/
def jsStartsWith (s pre : String) : Bool := pre.data.isPrefixOf s.data

/-- HTTP method of a request issued through `apiCall`. -/
inductive Method where
  | GET
  | POST
deriving DecidableEq, Repr

/-- Request bodies sent by the embedded handlers. The snapshot body mirrors
`const params = { snapname: name }; if (description) params.description = description;`:
a `none` description means the key is absent from the posted object. -/
inductive ReqBody where
  | snap (snapname : String) (description : Option String)
  | exec (command : String)
deriving DecidableEq, Repr

/-- One request issued through `apiCall(method, path, data)`. -/
structure Req where
  method : Method
  path : String
  body : Option ReqBody
deriving DecidableEq, Repr

/-- Shorthand for a body-less GET request. -/
def reqGET (p : String) : Req := ⟨Method.GET, p, none⟩

/-- Shorthand for a POST request. -/
def reqPOST (p : String) (b : Option ReqBody) : Req := ⟨Method.POST, p, b⟩

/-- Value observed by a caller of `apiCall`: either the failure envelope
`{error: message}` (axios rejected; `apiCall` caught it and returned the
envelope — it never rethrows), or the decoded body, which may itself be
falsy (`.ok none`). -/
inductive ApiResp (α : Type) where
  | err (msg : String)
  | ok (data : Option α)
deriving DecidableEq, Repr

/-- JavaScript string-or: `s || d` where the empty string is falsy. -/
def jsOr (s d : String) : String := if s = "" then d else s

/-- JavaScript string-or on a possibly-undefined value:
`x || d` where both undefined and the empty string are falsy. -/
def jsOrOpt (s : Option String) (d : String) : String :=
  match s with
  | none => d
  | some v => jsOr v d

/-- JavaScript numeric fallback `n || d` on a non-negative integer:
only 0 is falsy. -/
def jsFallback (n d : Nat) : Nat := if n = 0 then d else n

/-- Process environment slice read by the constructor and startup code. -/
structure Env where
  PROXMOX_HOST : Option String
  PROXMOX_USER : Option String
  PROXMOX_TOKEN_ID : Option String
  PROXMOX_TOKEN_SECRET : Option String
  PROXMOX_VERIFY_SSL : Option String
deriving DecidableEq, Repr

/-- Port-stripping block of the `ProxmoxManager` constructor:
```
if (this.host && this.host.includes(':')) {
  const parts = this.host.split('//');
  if (parts.length > 1 && parts[1].includes(':')) {
    this.host = parts[0] + '//' + parts[1].split(':')[0];
  }
}
```
The outer truthiness guard on `this.host` is handled by the caller mapping
over the optional host (an empty host contains no colon, so the result is
unchanged either way). -/
def stripDupPort (host : String) : String :=
  if jsIncludesChar host ':' then
    let parts := jsSplit host "//"
    if 1 < parts.length && jsIncludesChar (parts.getD 1 "") ':' then
      parts.getD 0 "" ++ "//" ++ (jsSplit (parts.getD 1 "") ":").getD 0 ""
    else host
  else host

/-- Configured state of a successfully constructed `ProxmoxManager`,
including the axios client configuration (base URL, authorization header,
timeout in milliseconds). -/
structure Manager where
  host : String
  user : String
  tokenName : String
  tokenValue : String
  verifySSL : Bool
  baseURL : String
  authHeader : String
  timeout : Nat
deriving DecidableEq, Repr

/-- Error message thrown by the constructor when a required variable is
missing. -/
def missingVarsMsg : String :=
  "Missing required environment variables: PROXMOX_HOST, PROXMOX_TOKEN_ID, PROXMOX_TOKEN_SECRET"

/-- Truthiness of an optional environment string: undefined and the empty
string are falsy. -/
def envTruthy (s : Option String) : Bool :=
  match s with
  | none => false
  | some v => v ≠ ""

/-- The `ProxmoxManager` constructor. Reads the environment, strips a
duplicated port from the host, throws (modelled as `.error`) when
`PROXMOX_HOST`, `PROXMOX_TOKEN_ID` or `PROXMOX_TOKEN_SECRET` is missing or
empty, and otherwise configures the axios client with
`baseURL = https://<host>:8006/api2/json`, the PVEAPIToken header and a
30000 ms timeout. -/
def mkProxmoxManager (env : Env) : Except String Manager :=
  let user := jsOrOpt env.PROXMOX_USER "root@pam"
  let verifySSL : Bool := env.PROXMOX_VERIFY_SSL.map String.toLower = some "true"
  let host : Option String := env.PROXMOX_HOST.map stripDupPort
  if ¬ (envTruthy host && envTruthy env.PROXMOX_TOKEN_ID
        && envTruthy env.PROXMOX_TOKEN_SECRET) then
    .error missingVarsMsg
  else
    let h := host.getD ""
    let tn := env.PROXMOX_TOKEN_ID.getD ""
    let tv := env.PROXMOX_TOKEN_SECRET.getD ""
    .ok { host := h
          user := user
          tokenName := tn
          tokenValue := tv
          verifySSL := verifySSL
          baseURL := "https://" ++ h ++ ":8006/api2/json"
          authHeader := "PVEAPIToken=" ++ user ++ "!" ++ tn ++ "=" ++ tv
          timeout := 30000 }

/-- Server startup state: `runMCPServer` tries `new ProxmoxManager()` once;
on failure it records the error message and continues in degraded mode. -/
structure ServerState where
  proxmox : Option Manager
  initializationError : Option String
deriving Repr

/-- Startup sequence of `runMCPServer`:
`proxmox = new ProxmoxManager()` with the failure captured once. -/
def initServer (env : Env) : ServerState :=
  match mkProxmoxManager env with
  | .ok m => ⟨some m, none⟩
  | .error e => ⟨none, some e⟩

/-- Outcome of the `CallToolRequestSchema` handler: either the degraded-mode
error payload (serialized with `isError: true`) or whatever the routed tool
handler produced. -/
inductive ToolOutcome (ρ : Type) where
  | degraded (error : String) (details : String)
  | routed (r : ρ)
deriving DecidableEq, Repr

/-- The `CallToolRequestSchema` handler. Before any routing it checks
`if (!proxmox)` and short-circuits to the fixed error payload built from the
captured `initializationError`; only with a constructed manager does it enter
the `switch (name)` dispatch, abstracted here as the `route` argument so the
guard is stated for every dispatch table. The returned list is the trace of
network requests issued while answering the call. -/
def callToolHandler {α ρ : Type} (route : Manager → String → α → ρ × List Req)
    (st : ServerState) (name : String) (args : α) : ToolOutcome ρ × List Req :=
  match st.proxmox with
  | none =>
      (ToolOutcome.degraded
        ("Server initialization failed: " ++
          jsOrOpt st.initializationError "Proxmox connection not initialized")
        "Please check environment variables and server configuration", [])
  | some m =>
      let (r, tr) := route m name args
      (ToolOutcome.routed r, tr)

/-- Node entry of the `GET /nodes` listing. Only the field the embedded
handlers read (`node.node`, the node name) is modelled. -/
structure NodeRec where
  node : String
deriving DecidableEq, Repr

/-- One VM or container entry of a per-node `GET /nodes/{n}/qemu` or
`.../lxc` listing, kept opaque: the handlers forward these records
unchanged apart from annotating the owning node. -/
structure VMItem where
  vmid : Nat
  raw : String
deriving DecidableEq, Repr

/-- A listing entry after `vm.node = nodeName` annotation. The JS code
mutates the record in place; the annotation is modelled alongside. -/
structure AnnVM where
  item : VMItem
  node : String
deriving DecidableEq, Repr

/-- Raw task record of a `GET /nodes/{n}/tasks` response. `status`,
`starttime` and `endtime` are optional because the handler applies
`|| default` to each. -/
structure TaskRec where
  upid : String
  node : String
  pid : Int
  pstart : Int
  type : String
  status : Option String
  user : String
  starttime : Option Int
  endtime : Option Int
deriving DecidableEq, Repr

/-- Formatted task as built by `getRecentTasks`. The single-node branch
copies `pstart`; the all-nodes branch omits that key (`pstart := none`). -/
structure FTask where
  upid : String
  node : String
  pid : Int
  pstart : Option Int
  type : String
  status : String
  user : String
  starttime : Int
  endtime : Int
deriving DecidableEq, Repr

/-- Values of per-key VM/container configuration entries: the network keys
hold comma-separated strings, other keys may hold numbers. -/
inductive CfgVal where
  | str (s : String)
  | num (n : Int)
deriving DecidableEq, Repr

/-- Data of the guest-agent `network-get-interfaces` response body: the
payload of interest sits under its `result` key and may be absent. The
interface list itself is opaque to the handler, modelled as a string. -/
structure AgentResp where
  result : Option String
deriving DecidableEq, Repr

/-- Upstream cluster as observed through `apiCall`: one typed response
function per endpoint family. `configQ` and `postQ` are keyed by the full
path so the embedded handlers build the very URL strings the source builds. -/
structure World where
  nodes : ApiResp (List NodeRec)
  qemu : String → ApiResp (List VMItem)
  lxc : String → ApiResp (List VMItem)
  tasksQ : String → Nat → ApiResp (List TaskRec)
  statusQ : String → String → ApiResp String
  configQ : String → ApiResp (List (String × CfgVal))
  agentQ : String → Nat → ApiResp AgentResp
  postQ : String → Option ReqBody → ApiResp String

/-- Value of the `nodes` key returned by `getNodes`: `nodes || []` is either
a genuine listing array or, when `apiCall` failed, the truthy failure
envelope `{error: m}` passed through unchanged. -/
inductive NodesVal where
  | arr (ns : List NodeRec)
  | errObj (msg : String)
deriving DecidableEq, Repr

/-- Result of `getNodes`. The `payload` shape is
`{ nodes: nodes || [], count: nodes?.length || 0 }`; the `error` shape is
the surrounding catch block, which never fires because `apiCall` never
throws. -/
inductive NodesRes where
  | payload (nodes : NodesVal) (count : Nat)
  | error (msg : String)
deriving DecidableEq, Repr

/-- Method `getNodes`:
`const nodes = await this.apiCall('GET', '/nodes');`
`return { nodes: nodes || [], count: nodes?.length || 0 };`
On an `apiCall` failure `nodes` is the truthy envelope, so the result is the
success shape with the envelope under `nodes` and `count` 0 (its `length`
is undefined). -/
def getNodes (w : World) : NodesRes × List Req :=
  let tr := [reqGET "/nodes"]
  match w.nodes with
  | .err m => (NodesRes.payload (NodesVal.errObj m) 0, tr)
  | .ok none => (NodesRes.payload (NodesVal.arr []) 0, tr)
  | .ok (some ns) => (NodesRes.payload (NodesVal.arr ns) ns.length, tr)

/-- Result of `getVMs`: a success envelope
`{ vms, total, nodes_checked }` or the error envelope produced when node
discovery fails. -/
inductive VMsRes where
  | success (vms : List AnnVM) (total : Nat) (nodes_checked : Nat)
  | error (msg : String)
deriving DecidableEq, Repr

/-- Per-node slice of the `getVMs`/`getContainers` fan-out loop. A node
contributes its annotated items only when the per-node `apiCall` produced a
truthy non-envelope array (`nodeVMs && !nodeVMs.error`); a failure envelope
or falsy body contributes nothing (a nonempty-message envelope fails the
guard; an empty-message envelope passes it but then throws on iteration and
is swallowed by the per-node catch — either way the node is skipped). -/
def nodeSlice (resp : ApiResp (List VMItem)) (nodeName : String) : List AnnVM :=
  match resp with
  | .ok (some items) => items.map (fun it => AnnVM.mk it nodeName)
  | _ => []

/-- Method `getVMs`: discovers nodes, then fans out `GET /nodes/{n}/qemu`
per node, skipping failed nodes, and returns
`{ vms: allVMs, total: allVMs.length, nodes_checked: nodes.length }`.
Only a failed or falsy discovery yields a top-level error
(`nodes?.error || 'Failed to get nodes'`). -/
def getVMs (w : World) : VMsRes × List Req :=
  match w.nodes with
  | .err m => (VMsRes.error (jsOr m "Failed to get nodes"), [reqGET "/nodes"])
  | .ok none => (VMsRes.error "Failed to get nodes", [reqGET "/nodes"])
  | .ok (some ns) =>
      let allVMs := ns.flatMap (fun ni => nodeSlice (w.qemu ni.node) ni.node)
      let tr := reqGET "/nodes" :: ns.map (fun ni => reqGET ("/nodes/" ++ ni.node ++ "/qemu"))
      (VMsRes.success allVMs allVMs.length ns.length, tr)

/-- Result of `getContainers`: `{ containers, total, nodes_checked }` or the
discovery error envelope. -/
inductive CTsRes where
  | success (containers : List AnnVM) (total : Nat) (nodes_checked : Nat)
  | error (msg : String)
deriving DecidableEq, Repr

/-- Method `getContainers`: identical fan-out to `getVMs` over
`GET /nodes/{n}/lxc`. -/
def getContainers (w : World) : CTsRes × List Req :=
  match w.nodes with
  | .err m => (CTsRes.error (jsOr m "Failed to get nodes"), [reqGET "/nodes"])
  | .ok none => (CTsRes.error "Failed to get nodes", [reqGET "/nodes"])
  | .ok (some ns) =>
      let allContainers := ns.flatMap (fun ni => nodeSlice (w.lxc ni.node) ni.node)
      let tr := reqGET "/nodes" :: ns.map (fun ni => reqGET ("/nodes/" ++ ni.node ++ "/lxc"))
      (CTsRes.success allContainers allContainers.length ns.length, tr)

/-- Result of `startVM`. The `accepted` shape is
`{ success: true, task_id: result, message: ... }` where `task_id` is the
raw `apiCall` value — on failure the `{error}` envelope itself. The catch
branch (`error`) never fires because `apiCall` never throws. -/
inductive StartRes where
  | accepted (task_id : ApiResp String) (message : String)
  | error (msg : String)
deriving DecidableEq, Repr

/-- Method `startVM`: posts `/nodes/{node}/qemu/{vmid}/status/start` and
unconditionally wraps the `apiCall` value as
`{ success: true, task_id: result, message: 'VM <vmid> start initiated on node <node>' }`. -/
def startVM (w : World) (node : String) (vmid : Nat) : StartRes × List Req :=
  let path := "/nodes/" ++ node ++ "/qemu/" ++ toString vmid ++ "/status/start"
  (StartRes.accepted (w.postQ path none)
    ("VM " ++ toString vmid ++ " start initiated on node " ++ node),
   [reqPOST path none])

/-- ASCII apostrophe, used in user-facing messages around snapshot names. -/
def sq : String := (Char.ofNat 39).toString

/-- Result of a snapshot-creation method; as with `startVM` the catch branch
is dead and the accepted shape always carries the raw `apiCall` value. -/
inductive SnapRes where
  | accepted (task_id : ApiResp String) (message : String)
  | error (msg : String)
deriving DecidableEq, Repr

/-- Snapshot request body:
`const params = { snapname: name }; if (description) { params.description = description; }`
A missing or falsy (empty-string) description leaves the key absent. -/
def snapParams (name : String) (description : Option String) : ReqBody :=
  ReqBody.snap name
    (match description with
     | some d => if d = "" then none else some d
     | none => none)

/-- Method `createVMSnapshot`: posts the snapshot body to
`/nodes/{node}/qemu/{vmid}/snapshot`. -/
def createVMSnapshot (w : World) (node : String) (vmid : Nat) (name : String)
    (description : Option String) : SnapRes × List Req :=
  let params := snapParams name description
  let path := "/nodes/" ++ node ++ "/qemu/" ++ toString vmid ++ "/snapshot"
  (SnapRes.accepted (w.postQ path (some params))
    ("Snapshot " ++ sq ++ name ++ sq ++ " creation initiated for VM " ++ toString vmid),
   [reqPOST path (some params)])

/-- Method `createContainerSnapshot`: posts the snapshot body to
`/nodes/{node}/lxc/{vmid}/snapshot`. -/
def createContainerSnapshot (w : World) (node : String) (vmid : Nat) (name : String)
    (description : Option String) : SnapRes × List Req :=
  let params := snapParams name description
  let path := "/nodes/" ++ node ++ "/lxc/" ++ toString vmid ++ "/snapshot"
  (SnapRes.accepted (w.postQ path (some params))
    ("Snapshot " ++ sq ++ name ++ sq ++ " creation initiated for container " ++ toString vmid),
   [reqPOST path (some params)])

/-- Result of `getTaskStatus`: the upstream status payload (opaque) or an
error envelope; an `apiCall` failure envelope is truthy and is returned
unchanged by `return status || {...}`, so it surfaces as `.error msg`. -/
inductive TaskStatusRes where
  | success (status : String)
  | error (msg : String)
deriving DecidableEq, Repr

/-- Method `getTaskStatus`: validates the UPID client-side
(`upid.split(':')` must have at least 3 segments) before any request, then
queries `/nodes/{node}/tasks/{upid}/status`. -/
def getTaskStatus (w : World) (node : String) (upid : String) : TaskStatusRes × List Req :=
  let parts := jsSplit upid ":"
  if parts.length < 3 then
    (TaskStatusRes.error "Invalid UPID format", [])
  else
    let path := "/nodes/" ++ node ++ "/tasks/" ++ upid ++ "/status"
    match w.statusQ node upid with
    | .err m => (TaskStatusRes.error m, [reqGET path])
    | .ok none => (TaskStatusRes.error "No task status returned", [reqGET path])
    | .ok (some s) => (TaskStatusRes.success s, [reqGET path])

/-- Parsed key-value pairs of a network configuration string: for each
comma-separated part containing `=`, `part.split('=', 2)` yields the key and
the value (anything past a second `=` is dropped by the limit-2 split). The
pairs are kept in assignment order; the JS code stores them as extra object
properties on the interface record. -/
def parseNetParts (s : String) : List (String × String) :=
  (jsSplit s ",").filterMap (fun part =>
    if jsIncludesChar part '=' then
      some ((jsSplit part "=").getD 0 "", (jsSplit part "=").getD 1 "")
    else none)

/-- One extracted network interface:
`{ name: key, config: netConfig }` plus the parsed pairs when the raw value
is a string. -/
structure NetIface where
  name : String
  config : CfgVal
  kvs : List (String × String)
deriving DecidableEq, Repr

/-- State of the `agent_network` key on a `getVMNetwork` result: absent
(never assigned), explicitly null (only ever assigned in the catch block),
or carrying the live `agentInfo.result` payload. -/
inductive AgentNetField where
  | absent
  | null
  | data (d : String)
deriving DecidableEq, Repr

/-- Success payload of `getVMNetwork`. -/
structure NetInfo where
  vmid : Nat
  node : String
  type : String
  interfaces : List NetIface
  agent_network : AgentNetField
deriving DecidableEq, Repr

/-- Result of `getVMNetwork`. -/
inductive NetRes where
  | info (i : NetInfo)
  | error (msg : String)
deriving DecidableEq, Repr

/-- Interface-extraction loop of `getVMNetwork`: every configuration key
starting with `net` becomes an interface record, in key order. -/
def extractIfaces (cfg : List (String × CfgVal)) : List NetIface :=
  (cfg.filter (fun kv => jsStartsWith kv.1 "net")).map (fun kv =>
    { name := kv.1
      config := kv.2
      kvs := match kv.2 with
             | CfgVal.str s => parseNetParts s
             | _ => [] })

/-- Agent half of `getVMNetwork` (VM kind only):
```
try {
  const agentInfo = await this.apiCall('GET', `.../agent/network-get-interfaces`);
  if (agentInfo && agentInfo.result) { networkInfo.agent_network = agentInfo.result; }
} catch { networkInfo.agent_network = null; }
```
`apiCall` never throws: a transport failure yields the truthy envelope
whose `result` key is undefined, so the guard fails and the key is simply
never assigned. The catch assignment of `null` is unreachable, which is why
no branch below produces `AgentNetField.null`. -/
def agentHalf (w : World) (node : String) (vmid : Nat) : AgentNetField × List Req :=
  let path := "/nodes/" ++ node ++ "/qemu/" ++ toString vmid ++ "/agent/network-get-interfaces"
  (match w.agentQ node vmid with
   | .ok (some p) =>
       match p.result with
       | some r => AgentNetField.data r
       | none => AgentNetField.absent
   | _ => AgentNetField.absent,
   [reqGET path])

/-- Method `getVMNetwork(node, vmid, vmType = 'qemu')`: fetches the config
of the unit, extracts `net*` keys, and for the VM kind additionally queries
the in-guest agent. When the config fetch fails, `config` is the truthy
envelope `{error: m}` — the falsiness guard does not fire, the key loop sees
only the `error` key, and the method carries on with an empty interface
list. -/
def getVMNetwork (w : World) (node : String) (vmid : Nat) (vmType : String) :
    NetRes × List Req :=
  let endpoint :=
    if vmType = "qemu" then "/nodes/" ++ node ++ "/qemu/" ++ toString vmid ++ "/config"
    else "/nodes/" ++ node ++ "/lxc/" ++ toString vmid ++ "/config"
  match w.configQ endpoint with
  | .ok none => (NetRes.error "No config data returned", [reqGET endpoint])
  | .ok (some cfg) =>
      let (af, atr) :=
        if vmType = "qemu" then agentHalf w node vmid else (AgentNetField.absent, [])
      (NetRes.info
        { vmid := vmid, node := node, type := vmType
          interfaces := extractIfaces cfg, agent_network := af },
       reqGET endpoint :: atr)
  | .err m =>
      let (af, atr) :=
        if vmType = "qemu" then agentHalf w node vmid else (AgentNetField.absent, [])
      (NetRes.info
        { vmid := vmid, node := node, type := vmType
          interfaces := extractIfaces [("error", CfgVal.str m)], agent_network := af },
       reqGET endpoint :: atr)

/-- Formatted task of the single-node branch of `getRecentTasks`
(includes `pstart`). -/
def fmtTaskNode (t : TaskRec) : FTask :=
  { upid := t.upid, node := t.node, pid := t.pid, pstart := some t.pstart
    type := t.type, status := jsOrOpt t.status "running", user := t.user
    starttime := (t.starttime.getD 0), endtime := (t.endtime.getD 0) }

/-- Formatted task of the all-nodes branch of `getRecentTasks`
(omits `pstart`). -/
def fmtTaskAll (t : TaskRec) : FTask :=
  { upid := t.upid, node := t.node, pid := t.pid, pstart := none
    type := t.type, status := jsOrOpt t.status "running", user := t.user
    starttime := (t.starttime.getD 0), endtime := (t.endtime.getD 0) }

/-- Insertion step of the stable descending-by-starttime sort. -/
def insTask (x : FTask) : List FTask → List FTask
  | [] => [x]
  | y :: ys => if y.starttime ≤ x.starttime then x :: y :: ys else y :: insTask x ys

/-- Stable sort by `(a, b) => b.starttime - a.starttime`: most recent first,
ties kept in original order, matching the guaranteed-stable JS
`Array.prototype.sort`. -/
def sortTasks : List FTask → List FTask
  | [] => []
  | x :: xs => insTask x (sortTasks xs)

/-- Result of `getRecentTasks`. -/
inductive TasksRes where
  | success (tasks : List FTask) (count : Nat)
  | error (msg : String)
deriving DecidableEq, Repr

/-- Tail of `getRecentTasks`: sort descending, truncate to `limit`, and
report `count = Math.min(tasks.length, limit)` computed on the pre-slice
list. -/
def finishTasks (tasks : List FTask) (limit : Nat) : TasksRes :=
  TasksRes.success ((sortTasks tasks).take limit) (min tasks.length limit)

/-- URL of a per-node task query. -/
def tasksPath (n : String) (l : Nat) : String :=
  "/nodes/" ++ n ++ "/tasks?limit=" ++ toString l

/-- Per-node share of the requested limit in the all-nodes branch:
`Math.floor(limit / nodes.length) || limit` — when the floored share is 0
(fewer requested tasks than nodes) each node is asked for the full limit
instead. (With zero discovered nodes JS computes Infinity here, but the
loop body never runs, so the value is unobservable.) -/
def nodeShare (limit : Nat) (nodeCount : Nat) : Nat :=
  jsFallback (limit / nodeCount) limit

/-- Merged collection of the all-nodes branch: each node queried with the
per-node share contributes its formatted tasks in node order; a falsy body
is skipped by the truthiness guard and a failure envelope throws on
iteration into the per-node catch — a failure either way contributes
nothing. -/
def mergedTasks (w : World) (ns : List NodeRec) (share : Nat) : List FTask :=
  ns.flatMap (fun ni =>
    match w.tasksQ ni.node share with
    | ApiResp.ok (some ts) => ts.map fmtTaskAll
    | _ => [])

/-- Method `getRecentTasks(node = null, limit = 20)`.
Single-node branch: one query with the full limit; an `apiCall` failure
envelope passes the truthiness check and then throws on `for...of`, which
the outer catch converts to an error envelope (the V8 TypeError text).
All-nodes branch: discovery, then one query per node with `nodeShare`,
per-node failures swallowed by the inner catch; finally sort and truncate. -/
def getRecentTasks (w : World) (node : Option String) (limit : Nat) :
    TasksRes × List Req :=
  match node with
  | some n =>
      let tr := [reqGET (tasksPath n limit)]
      match w.tasksQ n limit with
      | .err _ => (TasksRes.error "nodeTasks is not iterable", tr)
      | .ok none => (finishTasks [] limit, tr)
      | .ok (some ts) => (finishTasks (ts.map fmtTaskNode) limit, tr)
  | none =>
      match w.nodes with
      | .err _ => (TasksRes.error "nodes is not iterable", [reqGET "/nodes"])
      | .ok none => (finishTasks [] limit, [reqGET "/nodes"])
      | .ok (some ns) =>
          (finishTasks (mergedTasks w ns (nodeShare limit ns.length)) limit,
           reqGET "/nodes" ::
             ns.map (fun ni => reqGET (tasksPath ni.node (nodeShare limit ns.length))))

/-- Descending-starttime ordering relation on formatted tasks: `a` may
precede `b` exactly when `b.starttime ≤ a.starttime`. -/
def taskDesc (a b : FTask) : Prop := b.starttime ≤ a.starttime

/-- Inserting keeps the multiset of tasks. -/
theorem insTask_perm (x : FTask) (l : List FTask) : (insTask x l).Perm (x :: l) := by
  induction l with
  | nil => simp [insTask]
  | cons y ys ih =>
      by_cases hc : y.starttime ≤ x.starttime
      · simp [insTask, hc]
      · simp only [insTask, if_neg hc]
        exact (ih.cons y).trans (List.Perm.swap x y ys)

/-- Sorting keeps the multiset of tasks. -/
theorem sortTasks_perm (l : List FTask) : (sortTasks l).Perm l := by
  induction l with
  | nil => rfl
  | cons x xs ih => exact (insTask_perm x (sortTasks xs)).trans (ih.cons x)

/-- Sorting keeps the number of tasks. -/
theorem sortTasks_length (l : List FTask) : (sortTasks l).length = l.length :=
  (sortTasks_perm l).length_eq

/-- Inserting into a descending list yields a descending list. -/
theorem pairwise_insTask (x : FTask) (l : List FTask)
    (h : l.Pairwise taskDesc) : (insTask x l).Pairwise taskDesc := by
  induction l with
  | nil => simp [insTask, taskDesc]
  | cons y ys ih =>
      obtain ⟨hy, hys⟩ := List.pairwise_cons.mp h
      by_cases hc : y.starttime ≤ x.starttime
      · simp only [insTask, if_pos hc]
        refine List.pairwise_cons.mpr ⟨?_, h⟩
        intro z hz
        rcases List.mem_cons.mp hz with rfl | hz2
        · exact hc
        · exact le_trans (hy z hz2) hc
      · simp only [insTask, if_neg hc]
        refine List.pairwise_cons.mpr ⟨?_, ih hys⟩
        intro z hz
        have hz2 : z = x ∨ z ∈ ys := by
          have := (insTask_perm x ys).mem_iff.mp hz
          simpa using this
        rcases hz2 with rfl | hz3
        · exact le_of_lt (lt_of_not_le hc)
        · exact hy z hz3

/-- The embedded sort produces a descending-by-starttime list. -/
theorem sortTasks_pairwise (l : List FTask) : (sortTasks l).Pairwise taskDesc := by
  induction l with
  | nil => simp [sortTasks]
  | cons x xs ih => exact pairwise_insTask x (sortTasks xs) ih

/-- Everything `finishTasks` labels a success is descending and clipped to
the limit, with the reported count also clipped. -/
theorem finishTasks_spec (l : List FTask) (limit : Nat) (ts : List FTask) (c : Nat)
    (h : finishTasks l limit = TasksRes.success ts c) :
    ts.Pairwise taskDesc ∧ ts.length ≤ limit ∧ c ≤ limit := by
  unfold finishTasks at h
  obtain ⟨hts, hc⟩ : (sortTasks l).take limit = ts ∧ min l.length limit = c := by
    injection h with h1 h2
    exact ⟨h1, h2⟩
  subst hts
  subst hc
  refine ⟨?_, ?_, ?_⟩
  · exact List.Pairwise.sublist (List.take_sublist limit (sortTasks l)) (sortTasks_pairwise l)
  · simp [List.length_take]
  · exact min_le_right l.length limit

/-- Description field of a request body, for stating what a posted snapshot
body carries. -/
def ReqBody.descField : ReqBody → Option String
  | ReqBody.snap _ d => d
  | ReqBody.exec _ => none

/-- Baseline quiet world: every endpoint answers with a falsy body.
Concrete scenario worlds below override individual endpoints. -/
def wBase : World :=
  { nodes := ApiResp.ok none
    qemu := fun _ => ApiResp.ok none
    lxc := fun _ => ApiResp.ok none
    tasksQ := fun _ _ => ApiResp.ok none
    statusQ := fun _ _ => ApiResp.ok none
    configQ := fun _ => ApiResp.ok none
    agentQ := fun _ _ => ApiResp.ok none
    postQ := fun _ _ => ApiResp.ok none }

/-- World in which the upstream is unreachable: discovery and POSTs fail at
the transport level with an axios timeout message. -/
def wDown : World :=
  { wBase with
    nodes := ApiResp.err "timeout of 30000ms exceeded"
    postQ := fun _ _ => ApiResp.err "timeout of 30000ms exceeded" }

/-- Two-node cluster whose every per-node listing query fails. -/
def wC2 : World :=
  { wBase with
    nodes := ApiResp.ok (some [⟨"pve1"⟩, ⟨"pve2"⟩])
    qemu := fun _ => ApiResp.err "connect ECONNREFUSED"
    lxc := fun _ => ApiResp.err "connect ECONNREFUSED" }

/-- Sample raw tasks for the task-listing scenarios. -/
def taskA : TaskRec :=
  ⟨"UPID:pve1:0A:01:qmstart", "pve1", 10, 1, "qmstart", some "OK", "root@pam", some 100, some 110⟩

/-- Second sample task, most recent of the three. -/
def taskB : TaskRec :=
  ⟨"UPID:pve1:0B:02:qmstop", "pve1", 11, 2, "qmstop", none, "root@pam", some 300, none⟩

/-- Third sample task, hosted on the second node. -/
def taskC : TaskRec :=
  ⟨"UPID:pve2:0C:03:vzstart", "pve2", 12, 3, "vzstart", some "running", "root@pam", some 200, some 210⟩

/-- Two-node cluster with tasks on both nodes. -/
def wC3 : World :=
  { wBase with
    nodes := ApiResp.ok (some [⟨"pve1"⟩, ⟨"pve2"⟩])
    tasksQ := fun n _ =>
      if n = "pve1" then ApiResp.ok (some [taskA, taskB]) else ApiResp.ok (some [taskC]) }

/-- Two-node cluster answering every task query with an empty listing, used
to observe the per-node limit in the request trace. -/
def wC8 : World :=
  { wBase with
    nodes := ApiResp.ok (some [⟨"pve1"⟩, ⟨"pve2"⟩])
    tasksQ := fun _ _ => ApiResp.ok (some []) }

/-- World whose config fetch succeeds but whose guest-agent query fails at
the transport level. -/
def wC9 : World :=
  { wBase with
    configQ := fun _ => ApiResp.ok (some [("net0", CfgVal.str "virtio=AA,bridge=vmbr0")])
    agentQ := fun _ _ => ApiResp.err "timeout of 30000ms exceeded" }

/-- Environment of the repository's own test script (`test-server.js`):
a bare host:port with no scheme separator. -/
def envBarePort : Env :=
  ⟨some "12.12.8.102:8006", none, some "openwebui",
   some "6dfba038-228d-42ef-9147-15771a44c3cb", none⟩

/-- Environment with every variable absent, driving startup into degraded
mode. -/
def envEmpty : Env := ⟨none, none, none, none, none⟩

/-- Constructor failures carry exactly the missing-variables message: the
only `throw` in the constructor. -/
theorem mkProxmoxManager_error_msg (env : Env) (r : String)
    (hc : mkProxmoxManager env = Except.error r) : r = missingVarsMsg := by
  unfold mkProxmoxManager at hc
  dsimp only at hc
  split at hc
  · injection hc with h
    exact h.symm
  · exact Except.noConfusion hc

/-- C1: once the `ProxmoxManager` constructor has failed at startup, every
dispatched tool call — for every dispatch table, tool name and argument
value — returns the degraded-mode envelope whose `error` field references
the captured failure reason, issues no network request, and never
re-attempts construction (the answer is a function of the captured state
alone). -/
theorem degraded_mode_short_circuit {α ρ : Type}
    (route : Manager → String → α → ρ × List Req) (env : Env) (r : String)
    (hc : mkProxmoxManager env = Except.error r) (name : String) (args : α) :
    callToolHandler route (initServer env) name args =
      (ToolOutcome.degraded ("Server initialization failed: " ++ r)
        "Please check environment variables and server configuration", []) := by
  have hr : r = missingVarsMsg := mkProxmoxManager_error_msg env r hc
  subst hr
  have hs : initServer env = ⟨none, some missingVarsMsg⟩ := by
    unfold initServer
    rw [hc]
  rw [hs]
  rfl

/-- Witness for C1: with an empty environment the constructor fails and a
dispatched `get_vms` call answers with the degraded envelope and an empty
request trace. -/
theorem degraded_mode_short_circuit_witness :
    mkProxmoxManager envEmpty = Except.error missingVarsMsg ∧
    callToolHandler (fun _ _ _ => ((), [])) (initServer envEmpty) "get_vms" (0 : Nat) =
      (ToolOutcome.degraded ("Server initialization failed: " ++ missingVarsMsg)
        "Please check environment variables and server configuration", []) :=
  ⟨rfl, degraded_mode_short_circuit (fun _ _ _ => ((), [])) envEmpty missingVarsMsg rfl "get_vms" 0⟩

/-- C5: a UPID with fewer than 3 colon-delimited segments makes
`getTaskStatus` answer `{error: "Invalid UPID format"}` with an empty
request trace — the validation happens client-side before any transport
activity. -/
theorem getTaskStatus_invalid_upid (w : World) (node upid : String)
    (h : (jsSplit upid ":").length < 3) :
    getTaskStatus w node upid = (TaskStatusRes.error "Invalid UPID format", []) := by
  unfold getTaskStatus
  simp only [if_pos h]

/-- Witness for C5: the spec scenario `{node: "pve1", upid: "bad"}`. -/
theorem getTaskStatus_invalid_upid_witness :
    (jsSplit "bad" ":").length < 3 ∧
    getTaskStatus wBase "pve1" "bad" = (TaskStatusRes.error "Invalid UPID format", []) :=
  ⟨by decide, getTaskStatus_invalid_upid wBase "pve1" "bad" (by decide)⟩

/-- C6: a snapshot creation without a description posts a body holding only
the `snapname` key — the `description` key is absent, for the VM and the
container variant alike. -/
theorem createSnapshot_no_description_key (w : World) (node : String) (vmid : Nat)
    (name : String) :
    (createVMSnapshot w node vmid name none).2 =
      [reqPOST ("/nodes/" ++ node ++ "/qemu/" ++ toString vmid ++ "/snapshot")
        (some (ReqBody.snap name none))] ∧
    (createContainerSnapshot w node vmid name none).2 =
      [reqPOST ("/nodes/" ++ node ++ "/lxc/" ++ toString vmid ++ "/snapshot")
        (some (ReqBody.snap name none))] :=
  ⟨rfl, rfl⟩

/-- C10: supplying the empty string as description behaves exactly like
omitting it (the falsiness guard `if (description)` rejects it), and no
posted snapshot body ever carries an empty-string description. -/
theorem createSnapshot_empty_description_omitted (w : World) (node : String)
    (vmid : Nat) (name : String) (d : Option String) :
    createVMSnapshot w node vmid name (some "") = createVMSnapshot w node vmid name none ∧
    createContainerSnapshot w node vmid name (some "") =
      createContainerSnapshot w node vmid name none ∧
    ((snapParams name d).descField.all fun s => s != "") = true := by
  refine ⟨rfl, rfl, ?_⟩
  cases d with
  | none => rfl
  | some s =>
      by_cases hs : s = ""
      · simp [snapParams, ReqBody.descField, hs]
      · simp [snapParams, ReqBody.descField, hs]

/-- C4 (bug): on a transport failure `apiCall` returns the `{error}`
envelope but never throws, so the dead catch blocks of `getNodes` and
`startVM` do not fire: `getNodes` answers the success shape
`{nodes: <envelope>, count: 0}` and `startVM` answers
`{success: true, task_id: <envelope>, message: ...}` instead of the
top-level `{error: message}` the spec promises. The single trace entry also
records that the failed call is not retried. -/
theorem transport_error_wrapped_not_envelope :
    getNodes wDown =
      (NodesRes.payload (NodesVal.errObj "timeout of 30000ms exceeded") 0,
       [reqGET "/nodes"]) ∧
    startVM wDown "pve1" 100 =
      (StartRes.accepted (ApiResp.err "timeout of 30000ms exceeded")
        "VM 100 start initiated on node pve1",
       [reqPOST "/nodes/pve1/qemu/100/status/start" none]) :=
  ⟨rfl, rfl⟩

/-- C7 (bug): the repository's own test host `12.12.8.102:8006` contains no
`//`, so the dup-port removal is skipped in spite of its comment, and the
constructed base URL carries `:8006` twice (splitting on `:8006` yields 3
chunks). -/
theorem duplicated_port_not_stripped :
    stripDupPort "12.12.8.102:8006" = "12.12.8.102:8006" ∧
    mkProxmoxManager envBarePort = Except.ok
      { host := "12.12.8.102:8006", user := "root@pam", tokenName := "openwebui",
        tokenValue := "6dfba038-228d-42ef-9147-15771a44c3cb", verifySSL := false,
        baseURL := "https://12.12.8.102:8006:8006/api2/json",
        authHeader := "PVEAPIToken=root@pam!openwebui=6dfba038-228d-42ef-9147-15771a44c3cb",
        timeout := 30000 } ∧
    (jsSplit "https://12.12.8.102:8006:8006/api2/json" ":8006").length = 3 :=
  ⟨rfl, rfl, rfl⟩

/-- C9 (bug): when the config fetch succeeds but the live guest-agent query
fails, `agentInfo` is the truthy envelope without a `result` key, the guard
fails, and the returned object simply never receives the `agent_network`
key — the catch block that would set it to null is unreachable. -/
theorem agent_network_key_omitted_on_failure :
    getVMNetwork wC9 "pve1" 100 "qemu" =
      (NetRes.info
        { vmid := 100, node := "pve1", type := "qemu"
          interfaces := [{ name := "net0", config := CfgVal.str "virtio=AA,bridge=vmbr0",
                           kvs := [("virtio", "AA"), ("bridge", "vmbr0")] }]
          agent_network := AgentNetField.absent },
       [reqGET "/nodes/pve1/qemu/100/config",
        reqGET "/nodes/pve1/qemu/100/agent/network-get-interfaces"]) := by
  decide

/-- C2: when node discovery succeeds with `ns` and every per-node listing
query fails at the transport level, both fan-out listings still answer the
success envelope with an empty collection, total 0, and `nodes_checked`
equal to the discovered node count. -/
theorem fanout_total_per_node_failure (w : World) (ns : List NodeRec)
    (hn : w.nodes = ApiResp.ok (some ns))
    (hq : ∀ n ∈ ns, ∃ m, w.qemu n.node = ApiResp.err m)
    (hl : ∀ n ∈ ns, ∃ m, w.lxc n.node = ApiResp.err m) :
    (getVMs w).1 = VMsRes.success [] 0 ns.length ∧
    (getContainers w).1 = CTsRes.success [] 0 ns.length := by
  have hq0 : ns.flatMap (fun ni => nodeSlice (w.qemu ni.node) ni.node) = [] := by
    rw [List.flatMap_eq_nil_iff]
    intro n hnn
    obtain ⟨m, hm⟩ := hq n hnn
    rw [hm]
    rfl
  have hl0 : ns.flatMap (fun ni => nodeSlice (w.lxc ni.node) ni.node) = [] := by
    rw [List.flatMap_eq_nil_iff]
    intro n hnn
    obtain ⟨m, hm⟩ := hl n hnn
    rw [hm]
    rfl
  constructor
  · unfold getVMs
    rw [hn]
    dsimp only
    rw [hq0]
    rfl
  · unfold getContainers
    rw [hn]
    dsimp only
    rw [hl0]
    rfl

/-- Witness for C2: a concrete two-node cluster refusing every per-node
connection. -/
theorem fanout_total_per_node_failure_witness :
    (getVMs wC2).1 = VMsRes.success [] 0 2 ∧
    (getContainers wC2).1 = CTsRes.success [] 0 2 :=
  fanout_total_per_node_failure wC2 [⟨"pve1"⟩, ⟨"pve2"⟩] rfl
    (fun _ _ => ⟨"connect ECONNREFUSED", rfl⟩)
    (fun _ _ => ⟨"connect ECONNREFUSED", rfl⟩)

/-- C3: every success result of `getRecentTasks` — single-node or all-nodes
branch — is sorted by start time descending, its length never exceeds the
requested limit, and neither does the reported count. -/
theorem getRecentTasks_sorted_bounded (w : World) (node : Option String) (limit : Nat)
    (ts : List FTask) (c : Nat) (tr : List Req)
    (h : getRecentTasks w node limit = (TasksRes.success ts c, tr)) :
    ts.Pairwise taskDesc ∧ ts.length ≤ limit ∧ c ≤ limit := by
  unfold getRecentTasks at h
  rcases node with _ | n
  · dsimp only at h
    rcases hw : w.nodes with m | od
    · rw [hw] at h
      simp at h
    · rw [hw] at h
      rcases od with _ | ns
      · dsimp only at h
        rw [Prod.mk.injEq] at h
        exact finishTasks_spec _ _ _ _ h.1
      · dsimp only at h
        rw [Prod.mk.injEq] at h
        exact finishTasks_spec _ _ _ _ h.1
  · dsimp only at h
    rcases hw : w.tasksQ n limit with m | od
    · rw [hw] at h
      simp at h
    · rw [hw] at h
      rcases od with _ | ts0
      · dsimp only at h
        rw [Prod.mk.injEq] at h
        exact finishTasks_spec _ _ _ _ h.1
      · dsimp only at h
        rw [Prod.mk.injEq] at h
        exact finishTasks_spec _ _ _ _ h.1

/-- Witness for C3: three tasks merged from two nodes with limit 2; the
returned list is the two most recent, descending. -/
theorem getRecentTasks_sorted_bounded_witness :
    ([fmtTaskAll taskB, fmtTaskAll taskC] : List FTask).Pairwise taskDesc ∧
    ([fmtTaskAll taskB, fmtTaskAll taskC] : List FTask).length ≤ 2 ∧ 2 ≤ 2 :=
  getRecentTasks_sorted_bounded wC3 none 2 [fmtTaskAll taskB, fmtTaskAll taskC] 2
    [reqGET "/nodes", reqGET "/nodes/pve1/tasks?limit=1", reqGET "/nodes/pve2/tasks?limit=1"]
    (by decide)

/-- Counterexample to C8 as stated: with 2 discovered nodes and limit 1 the
even share `Math.floor(1 / 2)` is 0, yet each node is queried with
`?limit=1` (the full limit), not `?limit=0`. -/
theorem recentTasks_even_share_counterexample :
    (1 : Nat) / 2 = 0 ∧
    (getRecentTasks wC8 none 1).2 =
      [reqGET "/nodes", reqGET "/nodes/pve1/tasks?limit=1",
       reqGET "/nodes/pve2/tasks?limit=1"] ∧
    ((getRecentTasks wC8 none 1).2.contains (reqGET "/nodes/pve1/tasks?limit=0")) = false := by
  refine ⟨rfl, rfl, ?_⟩
  decide

/-- C8 as amended: with no node argument and successful discovery, every
discovered node is queried exactly once with
`Math.floor(limit / nodeCount) || limit` — the floored even share, falling
back to the full limit when that share is zero — and the result is the
merged per-node collection sorted by start time descending (a permutation
of the merge) and truncated to `limit`. -/
theorem recentTasks_share_fallback_amended (w : World) (ns : List NodeRec) (limit : Nat)
    (hn : w.nodes = ApiResp.ok (some ns)) :
    (getRecentTasks w none limit).2 =
      reqGET "/nodes" ::
        ns.map (fun ni => reqGET (tasksPath ni.node (nodeShare limit ns.length))) ∧
    (getRecentTasks w none limit).1 =
      TasksRes.success
        ((sortTasks (mergedTasks w ns (nodeShare limit ns.length))).take limit)
        (min (mergedTasks w ns (nodeShare limit ns.length)).length limit) ∧
    (sortTasks (mergedTasks w ns (nodeShare limit ns.length))).Perm
      (mergedTasks w ns (nodeShare limit ns.length)) ∧
    (sortTasks (mergedTasks w ns (nodeShare limit ns.length))).Pairwise taskDesc := by
  refine ⟨?_, ?_, sortTasks_perm _, sortTasks_pairwise _⟩
  · unfold getRecentTasks
    rw [hn]
  · unfold getRecentTasks
    rw [hn]
    rfl

/-- Witness for the amended C8: two nodes, limit 1, share falls back to the
full limit and the result is the empty merge. -/
theorem recentTasks_share_fallback_amended_witness :
    (getRecentTasks wC8 none 1).2 =
      [reqGET "/nodes", reqGET "/nodes/pve1/tasks?limit=1",
       reqGET "/nodes/pve2/tasks?limit=1"] ∧
    (getRecentTasks wC8 none 1).1 = TasksRes.success [] 0 ∧
    (sortTasks (mergedTasks wC8 [⟨"pve1"⟩, ⟨"pve2"⟩] 1)).Perm
      (mergedTasks wC8 [⟨"pve1"⟩, ⟨"pve2"⟩] 1) ∧
    (sortTasks (mergedTasks wC8 [⟨"pve1"⟩, ⟨"pve2"⟩] 1)).Pairwise taskDesc :=
  recentTasks_share_fallback_amended wC8 [⟨"pve1"⟩, ⟨"pve2"⟩] 1 rfl

end ProxmoxEmCP
